import Mathlib

/-!
Verification development for the `notebooks/stochastic_training/node_classification.ipynb`
tutorial notebook.  The notebook is a linear orchestration script over external
libraries (DGL/GraphBolt, PyTorch, scikit-learn).  We shallowly embed:

* the device selection and the data-loader pipeline built by `create_dataloader`;
* the two-layer GraphSAGE `Model` class (layer construction and `forward`);
* the install/import guard cell (a `try/except ImportError` block);
* the statement skeleton of every code cell (to reason about exception handlers);
* the event trace of a complete sequential execution of all cells, as a function
  of the environment facts the external libraries supply (number of minibatches
  per epoch, formatted loss/accuracy strings, printed representations).

External library behaviour that the notebook's observable claims depend on is
modelled abstractly (an abstract parameter state that only the optimizer step
function touches, an abstract per-stage transformation of minibatches).
-/

namespace NodeClassification

/-- Torch devices that matter to the notebook: `torch.device("cpu")` versus a
CUDA device.  The notebook never constructs the latter. -/
inductive Dev where
  | cpu
  | cuda
deriving DecidableEq, Repr

/-- Embedding of `device = torch.device("cpu")` from the install cell.  The
assignment is unconditional: no CUDA-availability check appears anywhere in the
notebook. -/
def device : Dev := Dev.cpu

/-- One stage of the GraphBolt data pipe built inside `create_dataloader`. -/
inductive Stage where
  | itemSampler (batchSize : Nat) (shuffle : Bool)
  | copyTo (d : Dev) (extraAttrs : List String)
  | sampleNeighbor (fanouts : List Nat)
  | fetchFeature (nodeFeatureKeys : List String)
deriving DecidableEq, Repr

/-- Embedding of the notebook's `create_dataloader(itemset, shuffle)`: the list
of pipeline stages, in the order the source composes them:
`gb.ItemSampler(itemset, batch_size=1024, shuffle=shuffle)`, then
`.copy_to(device, extra_attrs=["seeds"])`, then
`.sample_neighbor(graph, [4, 4])`, then
`.fetch_feature(feature, node_feature_keys=["feat"])`, wrapped in
`gb.DataLoader`. -/
def create_dataloader (shuffle : Bool) : List Stage :=
  [Stage.itemSampler 1024 shuffle,
   Stage.copyTo device ["seeds"],
   Stage.sampleNeighbor [4, 4],
   Stage.fetchFeature ["feat"]]

/-- Abstract observable state of a minibatch flowing through the pipeline. -/
structure MiniBatchState where
  batched : Bool
  batchSize : Option Nat
  dev : Option Dev
  hasSampledNeighborhoods : Bool
  fetchedFeatureKeys : List String
deriving DecidableEq, Repr

/-- Modelled from the spec: the external pipeline stages (`ItemSampler`,
`copy_to`, `sample_neighbor`, `fetch_feature`) are not part of this repository;
the spec's glossary describes their joint effect ("Minibatch: a batch of seed
nodes with sampled neighborhoods and fetched features, produced by the external
data pipeline").  Each stage contributes its named effect to the minibatch. -/
def applyStage (mb : MiniBatchState) : Stage → MiniBatchState
  | Stage.itemSampler bs _ => { mb with batched := true, batchSize := some bs }
  | Stage.copyTo d _ => { mb with dev := some d }
  | Stage.sampleNeighbor _ => { mb with hasSampledNeighborhoods := true }
  | Stage.fetchFeature keys =>
      { mb with fetchedFeatureKeys := mb.fetchedFeatureKeys ++ keys }

/-- The minibatch state before any stage has acted. -/
def initialMiniBatch : MiniBatchState :=
  { batched := false, batchSize := none, dev := none,
    hasSampledNeighborhoods := false, fetchedFeatureKeys := [] }

/-- Running a whole pipeline over the initial minibatch state. -/
def runPipeline (stages : List Stage) : MiniBatchState :=
  stages.foldl applyStage initialMiniBatch

/-- Static description of one `SAGEConv` layer as constructed by the notebook:
`SAGEConv(in_feats, out_feats, aggregator_type=...)`. -/
structure SAGEConvSpec where
  in_feats : Nat
  out_feats : Nat
  aggregator_type : String
deriving DecidableEq, Repr

/-- Embedding of the `SAGEConv` constructor call as it appears in the model
cell (positional sizes plus the aggregator keyword). -/
def SAGEConv (in_feats out_feats : Nat) (aggregator_type : String) : SAGEConvSpec :=
  { in_feats := in_feats, out_feats := out_feats, aggregator_type := aggregator_type }

/-- The fields a `Model` instance carries after `Model.__init__` runs. -/
structure Model where
  conv1 : SAGEConvSpec
  conv2 : SAGEConvSpec
  h_feats : Nat
deriving DecidableEq, Repr

/-- Embedding of `Model.__init__(self, in_feats, h_feats, num_classes)`:
`self.conv1 = SAGEConv(in_feats, h_feats, aggregator_type="mean")`,
`self.conv2 = SAGEConv(h_feats, num_classes, aggregator_type="mean")`,
`self.h_feats = h_feats`. -/
def Model.init (in_feats h_feats num_classes : Nat) : Model :=
  { conv1 := SAGEConv in_feats h_feats "mean",
    conv2 := SAGEConv h_feats num_classes "mean",
    h_feats := h_feats }

/-- Embedding of `Model.forward(self, mfgs, x)`, parametric in the external
semantics of a `SAGEConv` application (`convApply`) and of `F.relu` (`relu`);
`mfgs i` stands for the Python indexing `mfgs[i]`.  The body is the source's
`h = self.conv1(mfgs[0], x); h = F.relu(h); h = self.conv2(mfgs[1], h); return h`. -/
def Model.forward {B T : Type} (convApply : SAGEConvSpec → B → T → T)
    (relu : T → T) (m : Model) (mfgs : Nat → B) (x : T) : T :=
  let h := convApply m.conv1 (mfgs 0) x
  let h := relu h
  let h := convApply m.conv2 (mfgs 1) h
  h

/-- Outcome of attempting `import dgl; import dgl.graphbolt as gb`:
either both imports succeed, or some exception is raised.  `isImportError`
records whether the raised exception is an instance of `ImportError` (which is
what `except ImportError` tests). -/
inductive ImportAttempt where
  | success
  | raises (cls : String) (isImportError : Bool) (msg : String)
deriving DecidableEq, Repr

/-- What running one cell produces: the lines it prints, and the exception (by
class name) it propagates to the notebook environment, if any. -/
structure CellOutcome where
  printed : List String
  raised : Option String
deriving DecidableEq, Repr

/-- Embedding of the guarded import block of the install cell:
`try:` the two imports and `installed = True`; `except ImportError as error:`
`installed = False; print(error)`; then, outside the guard,
`print("DGL installed!" if installed else "DGL not found!")`.  An exception
that is not an `ImportError` escapes the cell before the final print runs. -/
def importCell : ImportAttempt → CellOutcome
  | ImportAttempt.success =>
      { printed := ["DGL installed!"], raised := none }
  | ImportAttempt.raises cls isIE msg =>
      if isIE then
        { printed := [msg, "DGL not found!"], raised := none }
      else
        { printed := [], raised := some cls }

/-- Observable events of one complete sequential execution of the notebook.
Constructors carry the epoch/step indices and the data the corresponding
source line mentions.  `writeFile`, `saveModel` and `defineCli` are effects the
notebook COULD have performed but never does; they are included so that frame
claims about the trace are not vacuous. -/
inductive Event where
  | pipInstall
  | importLib
  | printLine (s : String)
  | loadDataset (name : String)
  | graphTo (d : Dev)
  | featureTo (d : Dev)
  | mkDataloader (itemset : String) (shuffle : Bool)
  | getMinibatch (loader : String) (epoch step : Nat)
  | modelInit (d : Dev)
  | mkOptimizer
  | modelTrainMode
  | modelEvalMode
  | forwardPass (epoch step : Nat) (gradEnabled : Bool)
  | computeLoss (epoch step : Nat)
  | zeroGrad (epoch step : Nat)
  | backward (epoch step : Nat)
  | optStep (epoch step : Nat)
  | computeAccuracy (epoch step : Nat)
  | progressUpdate (epoch step : Nat) (loss acc : String)
  | argmaxAppend (epoch step : Nat)
  | validAccuracy (epoch : Nat)
  | writeFile (path : String)
  | saveModel (path : String)
  | defineCli
deriving DecidableEq, Repr

/-- Facts the external libraries supply to a given complete run: the task
metadata, printed representations, how many minibatches each data loader
yields per pass, and the formatted loss/accuracy numbers. -/
structure Env where
  taskName : String
  numClasses : Nat
  dataRepr : String
  inputNodesRepr : String
  trainBatches : Nat
  validBatches : Nat
  lossStr : Nat → Nat → String
  accStr : Nat → Nat → String
  validAccStr : Nat → String

/-- Trace of the install cell on a run where the imports succeed (any complete
execution of the later cells presupposes `dgl`/`gb` are bound). -/
def importCellTrace : List Event :=
  [Event.pipInstall, Event.importLib, Event.printLine "DGL installed!"]

/-- Trace of `dataset = gb.BuiltinDataset("ogbn-arxiv-seeds").load()`. -/
def loadCellTrace : List Event :=
  [Event.loadDataset "ogbn-arxiv-seeds"]

/-- Trace of the setup cell: `graph = dataset.graph.to(device)`,
`feature = dataset.feature.to(device)`, the task/set bindings, and the
task-name print (an f-string interpolating `task_name` and `num_classes`). -/
def setupCellTrace (env : Env) : List Event :=
  [Event.graphTo device, Event.featureTo device,
   Event.printLine
     ("Task: " ++ env.taskName ++ ". Number of classes: " ++ toString env.numClasses)]

/-- Trace of `data = next(iter(create_dataloader(train_set, shuffle=True)))`
followed by `print(data)`. -/
def firstBatchCellTrace (env : Env) : List Event :=
  [Event.mkDataloader "train_set" true, Event.getMinibatch "first" 0 0,
   Event.printLine env.dataRepr]

/-- Trace of `mfgs = data.blocks; input_nodes = mfgs[0].srcdata[dgl.NID]`
and the f-string print of the input node IDs. -/
def inputNodesCellTrace (env : Env) : List Event :=
  [Event.printLine ("Input nodes: " ++ env.inputNodesRepr ++ ".")]

/-- Trace of `model = Model(in_size, 64, num_classes).to(device)`. -/
def modelCellTrace : List Event :=
  [Event.modelInit device]

/-- Trace of `opt = torch.optim.Adam(model.parameters())`. -/
def optCellTrace : List Event :=
  [Event.mkOptimizer]

/-- Trace of the cell building `train_dataloader` and `valid_dataloader`. -/
def dataloadersCellTrace : List Event :=
  [Event.mkDataloader "train_set" true, Event.mkDataloader "valid_set" false]

/-- Trace of one training step of the loop body, in source order: pull the
minibatch from the loader, forward pass (gradients enabled), cross-entropy
loss, `opt.zero_grad()`, `loss.backward()`, `opt.step()`, accuracy via
`sklearn.metrics.accuracy_score`, then the tqdm progress update carrying the
formatted loss and accuracy. -/
def trainStepTrace (env : Env) (epoch step : Nat) : List Event :=
  [Event.getMinibatch "train" epoch step,
   Event.forwardPass epoch step true,
   Event.computeLoss epoch step,
   Event.zeroGrad epoch step,
   Event.backward epoch step,
   Event.optStep epoch step,
   Event.computeAccuracy epoch step,
   Event.progressUpdate epoch step (env.lossStr epoch step) (env.accStr epoch step)]

/-- Trace of one validation step: pull the minibatch, forward pass under
`torch.no_grad()` (gradients disabled), append `argmax` predictions/labels. -/
def validStepTrace (epoch step : Nat) : List Event :=
  [Event.getMinibatch "valid" epoch step,
   Event.forwardPass epoch step false,
   Event.argmaxAppend epoch step]

/-- Training phase of epoch `epoch`: `model.train()` then the per-step body
for every minibatch the train loader yields. -/
def trainPhaseTrace (env : Env) (epoch : Nat) : List Event :=
  Event.modelTrainMode :: (List.range env.trainBatches).flatMap (trainStepTrace env epoch)

/-- Validation phase of epoch `epoch`: `model.eval()`, the `no_grad` loop over
the validation loader, the epoch accuracy over the concatenated predictions,
and the `"Epoch {} Validation Accuracy {}".format(epoch, accuracy)` print. -/
def validPhaseTrace (env : Env) (epoch : Nat) : List Event :=
  Event.modelEvalMode :: (List.range env.validBatches).flatMap (validStepTrace epoch)
  ++ [Event.validAccuracy epoch,
      Event.printLine
        ("Epoch " ++ toString epoch ++ " Validation Accuracy " ++ env.validAccStr epoch)]

/-- One iteration of `for epoch in range(10)`. -/
def epochTrace (env : Env) (epoch : Nat) : List Event :=
  trainPhaseTrace env epoch ++ validPhaseTrace env epoch

/-- The whole training-loop cell: ten epochs. -/
def trainLoopTrace (env : Env) : List Event :=
  (List.range 10).flatMap (epochTrace env)

/-- Everything after the install cell, in cell order. -/
def postImportTrace (env : Env) : List Event :=
  loadCellTrace ++ setupCellTrace env ++ firstBatchCellTrace env
  ++ inputNodesCellTrace env ++ modelCellTrace ++ optCellTrace
  ++ dataloadersCellTrace ++ trainLoopTrace env

/-- The complete execution trace of the notebook, cell by cell. -/
def notebookTrace (env : Env) : List Event :=
  importCellTrace ++ postImportTrace env

/-- Projection of an event to its printed line, if it is a print. -/
def printOf : Event → Option String
  | Event.printLine s => some s
  | _ => none

/-- The lines a complete execution prints, in order. -/
def printedLines (env : Env) : List String :=
  (notebookTrace env).filterMap printOf

/-- Does an event write to the filesystem or define a command-line interface? -/
def writesFileOrDefinesCli : Event → Bool
  | Event.writeFile _ => true
  | Event.saveModel _ => true
  | Event.defineCli => true
  | _ => false

/-- Device an event places data on, if it is a placement event
(`.to(device)` on the graph, the feature store or the model). -/
def placementDevice : Event → Option Dev
  | Event.graphTo d => some d
  | Event.featureTo d => some d
  | Event.modelInit d => some d
  | _ => none

/-- Python's default propagation over a straight-line region with no handler:
the run stops at the first event whose external call raises, and that
exception reaches the notebook environment. -/
def runEvents (fails : Event → Option String) : List Event → Option String
  | [] => none
  | ev :: rest =>
      match fails ev with
      | some exn => some exn
      | none => runEvents fails rest

/-- Modelled from the spec: the optimizer stack is external; of all the calls
the notebook makes, only `opt.step()` mutates the model parameters (the
forward pass, loss, metric and `backward` leave them untouched).  `stepFn` is
the abstract parameter update `opt.step()` performs. -/
def applyToParams {P : Type} (stepFn : P → P) (θ : P) (ev : Event) : P :=
  match ev with
  | Event.optStep _ _ => stepFn θ
  | _ => θ

/-- Statement skeleton of the notebook's Python code, keeping exactly the
structure relevant to control flow: plain statements (all straight-line
statements, abstracted to a description), sequencing, function and class
definitions, `for` loops, `with` blocks, and `try/except` with the caught
exception class. -/
inductive Stmt where
  | plain (desc : String)
  | seq (a b : Stmt)
  | defFun (name : String) (body : Stmt)
  | classDef (name : String) (body : Stmt)
  | forLoop (desc : String) (body : Stmt)
  | withBlock (desc : String) (body : Stmt)
  | tryExcept (body : Stmt) (exnClass : String) (handler : Stmt)
deriving DecidableEq, Repr

/-- Right-nested sequencing of a block of statements. -/
def block : List Stmt → Stmt
  | [] => Stmt.plain "pass"
  | [s] => s
  | s :: rest => Stmt.seq s (block rest)

/-- All exception classes caught by `except` clauses anywhere in a statement,
in source order. -/
def Stmt.exnClauses : Stmt → List String
  | Stmt.plain _ => []
  | Stmt.seq a b => a.exnClauses ++ b.exnClauses
  | Stmt.defFun _ b => b.exnClauses
  | Stmt.classDef _ b => b.exnClauses
  | Stmt.forLoop _ b => b.exnClauses
  | Stmt.withBlock _ b => b.exnClauses
  | Stmt.tryExcept b c h => b.exnClauses ++ [c] ++ h.exnClauses

/-- Statement skeleton of the install cell (cell 2). -/
def installCellStmts : Stmt :=
  block
    [Stmt.plain "import os",
     Stmt.plain "import torch",
     Stmt.plain "import numpy as np",
     Stmt.plain "os.environ TORCH = torch version",
     Stmt.plain "os.environ DGLBACKEND = pytorch",
     Stmt.plain "device = torch.device cpu",
     Stmt.plain "shell pip install dgl from wheels-test repo",
     Stmt.tryExcept
       (block
         [Stmt.plain "import dgl",
          Stmt.plain "import dgl.graphbolt as gb",
          Stmt.plain "installed = True"])
       "ImportError"
       (block
         [Stmt.plain "installed = False",
          Stmt.plain "print error"]),
     Stmt.plain "print DGL installed or DGL not found"]

/-- Statement skeleton of the dataset-loading cell. -/
def loadCellStmts : Stmt :=
  Stmt.plain "dataset = gb.BuiltinDataset ogbn-arxiv-seeds load"

/-- Statement skeleton of the graph/feature/task setup cell. -/
def setupCellStmts : Stmt :=
  block
    [Stmt.plain "graph = dataset.graph.to device",
     Stmt.plain "feature = dataset.feature.to device",
     Stmt.plain "train_set = dataset.tasks 0 train_set",
     Stmt.plain "valid_set = dataset.tasks 0 validation_set",
     Stmt.plain "test_set = dataset.tasks 0 test_set",
     Stmt.plain "task_name = dataset.tasks 0 metadata name",
     Stmt.plain "num_classes = dataset.tasks 0 metadata num_classes",
     Stmt.plain "print task name and number of classes"]

/-- Statement skeleton of the `create_dataloader` definition cell. -/
def dataloaderDefCellStmts : Stmt :=
  Stmt.defFun "create_dataloader"
    (block
      [Stmt.plain "datapipe = gb.ItemSampler itemset batch_size 1024 shuffle",
       Stmt.plain "datapipe = datapipe.copy_to device extra_attrs seeds",
       Stmt.plain "datapipe = datapipe.sample_neighbor graph 4 4",
       Stmt.plain "datapipe = datapipe.fetch_feature feature node_feature_keys feat",
       Stmt.plain "return gb.DataLoader datapipe"])

/-- Statement skeleton of the first-minibatch cell. -/
def firstBatchCellStmts : Stmt :=
  block
    [Stmt.plain "data = next iter create_dataloader train_set shuffle True",
     Stmt.plain "print data"]

/-- Statement skeleton of the input-nodes cell. -/
def inputNodesCellStmts : Stmt :=
  block
    [Stmt.plain "mfgs = data.blocks",
     Stmt.plain "input_nodes = mfgs 0 srcdata dgl NID",
     Stmt.plain "print input nodes"]

/-- Statement skeleton of the model-definition cell. -/
def modelCellStmts : Stmt :=
  block
    [Stmt.plain "import torch.nn as nn",
     Stmt.plain "import torch.nn.functional as F",
     Stmt.plain "from dgl.nn import SAGEConv",
     Stmt.classDef "Model"
       (Stmt.seq
         (Stmt.defFun "init"
           (block
             [Stmt.plain "conv1 = SAGEConv in_feats h_feats mean",
              Stmt.plain "conv2 = SAGEConv h_feats num_classes mean",
              Stmt.plain "self.h_feats = h_feats"]))
         (Stmt.defFun "forward"
           (block
             [Stmt.plain "h = conv1 mfgs 0 x",
              Stmt.plain "h = relu h",
              Stmt.plain "h = conv2 mfgs 1 h",
              Stmt.plain "return h"]))),
     Stmt.plain "in_size = feature.size node None feat 0",
     Stmt.plain "model = Model in_size 64 num_classes to device"]

/-- Statement skeleton of the optimizer cell. -/
def optCellStmts : Stmt :=
  Stmt.plain "opt = torch.optim.Adam model.parameters"

/-- Statement skeleton of the dataloader-construction cell. -/
def dataloadersCellStmts : Stmt :=
  block
    [Stmt.plain "train_dataloader = create_dataloader train_set shuffle True",
     Stmt.plain "valid_dataloader = create_dataloader valid_set shuffle False",
     Stmt.plain "import sklearn.metrics"]

/-- Statement skeleton of the training-loop cell. -/
def trainLoopCellStmts : Stmt :=
  Stmt.seq (Stmt.plain "from tqdm.auto import tqdm")
    (Stmt.forLoop "epoch in range 10"
      (block
        [Stmt.plain "model.train",
         Stmt.withBlock "tqdm train_dataloader as tq"
           (Stmt.forLoop "step data in enumerate tq"
             (block
               [Stmt.plain "x = data.node_features feat",
                Stmt.plain "labels = data.labels",
                Stmt.plain "predictions = model data.blocks x",
                Stmt.plain "loss = F.cross_entropy predictions labels",
                Stmt.plain "opt.zero_grad",
                Stmt.plain "loss.backward",
                Stmt.plain "opt.step",
                Stmt.plain "accuracy = sklearn.metrics.accuracy_score",
                Stmt.plain "tq progress update with loss and acc"])),
         Stmt.plain "model.eval",
         Stmt.plain "predictions = empty list",
         Stmt.plain "labels = empty list",
         Stmt.withBlock "tqdm valid_dataloader as tq and torch.no_grad"
           (block
             [Stmt.forLoop "data in tq"
               (block
                 [Stmt.plain "x = data.node_features feat",
                  Stmt.plain "labels.append data.labels",
                  Stmt.plain "predictions.append model data.blocks x argmax"]),
              Stmt.plain "predictions = np.concatenate predictions",
              Stmt.plain "labels = np.concatenate labels",
              Stmt.plain "accuracy = sklearn.metrics.accuracy_score labels predictions",
              Stmt.plain "print Epoch Validation Accuracy"])]))

/-- The whole notebook program, cells in execution order. -/
def notebookProgram : Stmt :=
  block
    [installCellStmts, loadCellStmts, setupCellStmts, dataloaderDefCellStmts,
     firstBatchCellStmts, inputNodesCellStmts, modelCellStmts, optCellStmts,
     dataloadersCellStmts, trainLoopCellStmts]

/-- Everything after the install cell, as statements. -/
def postImportProgram : Stmt :=
  block
    [loadCellStmts, setupCellStmts, dataloaderDefCellStmts,
     firstBatchCellStmts, inputNodesCellStmts, modelCellStmts, optCellStmts,
     dataloadersCellStmts, trainLoopCellStmts]

/-- Concrete run environment used for witnesses and counterexamples: the
ogbn-arxiv node-classification task, two training minibatches and one
validation minibatch per epoch, constant formatted metrics. -/
def envA : Env :=
  { taskName := "node_classification", numClasses := 40,
    dataRepr := "MiniBatch with seeds labels blocks and node_features",
    inputNodesRepr := "tensor of input node ids",
    trainBatches := 2, validBatches := 1,
    lossStr := fun _ _ => "1.000", accStr := fun _ _ => "0.500",
    validAccStr := fun _ => "0.500" }

/-- Same run as `envA` except every training-step loss is different. -/
def envB : Env :=
  { envA with lossStr := fun _ _ => "2.000" }

/-- C2: if importing dgl or dgl.graphbolt fails with an ImportError, the
install cell prints the error message followed by "DGL not found!" and the
cell completes without re-raising; if the imports succeed it prints
"DGL installed!" instead. -/
theorem import_guard_behavior (cls msg : String) :
    importCell (ImportAttempt.raises cls true msg) =
      { printed := [msg, "DGL not found!"], raised := none } ∧
    importCell ImportAttempt.success =
      { printed := ["DGL installed!"], raised := none } :=
  ⟨rfl, rfl⟩

/-- C8: the import guard catches only ImportError; an exception of any other
class propagates uncaught and neither "DGL installed!" nor "DGL not found!"
is printed. -/
theorem import_guard_other_exception (cls msg : String) :
    (importCell (ImportAttempt.raises cls false msg)).raised = some cls ∧
    "DGL installed!" ∉ (importCell (ImportAttempt.raises cls false msg)).printed ∧
    "DGL not found!" ∉ (importCell (ImportAttempt.raises cls false msg)).printed := by
  refine ⟨rfl, ?_, ?_⟩ <;> simp [importCell]

/-- C4: every data loader built by `create_dataloader` composes, in order, an
`ItemSampler` with batch size 1024, a copy to the target device, neighbor
sampling with fanout [4, 4], and fetching of the "feat" node features; hence
a minibatch it yields is a batch of seed nodes with sampled neighborhoods and
fetched features, on the CPU device. -/
theorem dataloader_pipeline (shuffle : Bool) :
    create_dataloader shuffle =
      [Stage.itemSampler 1024 shuffle, Stage.copyTo device ["seeds"],
       Stage.sampleNeighbor [4, 4], Stage.fetchFeature ["feat"]] ∧
    runPipeline (create_dataloader shuffle) =
      { batched := true, batchSize := some 1024, dev := some Dev.cpu,
        hasSampledNeighborhoods := true, fetchedFeatureKeys := ["feat"] } :=
  ⟨rfl, rfl⟩

/-- C7: the trained model is a two-layer GraphSAGE classifier: `forward`
applies `conv2` to `mfgs[1]` and `relu(conv1(mfgs[0], x))`, both layers use
mean aggregation, and the second layer's output width is the number of
classes (the notebook instantiates `Model(in_size, 64, num_classes)`). -/
theorem model_two_layer_sage (in_size num_classes : Nat) {B T : Type}
    (convApply : SAGEConvSpec → B → T → T) (relu : T → T) (mfgs : Nat → B) (x : T) :
    Model.forward convApply relu (Model.init in_size 64 num_classes) mfgs x
      = convApply (Model.init in_size 64 num_classes).conv2 (mfgs 1)
          (relu (convApply (Model.init in_size 64 num_classes).conv1 (mfgs 0) x)) ∧
    (Model.init in_size 64 num_classes).conv1.aggregator_type = "mean" ∧
    (Model.init in_size 64 num_classes).conv2.aggregator_type = "mean" ∧
    (Model.init in_size 64 num_classes).conv2.out_feats = num_classes ∧
    (Model.init in_size 64 num_classes).conv1.in_feats = in_size ∧
    (Model.init in_size 64 num_classes).conv1.out_feats = 64 ∧
    (Model.init in_size 64 num_classes).conv2.in_feats = 64 :=
  ⟨rfl, rfl, rfl, rfl, rfl, rfl, rfl⟩

/-- `Seg N L` holds when `N` occurs as a contiguous segment of `L`; it is the
shape in which ordering facts about the execution trace are stated. -/
def Seg {α : Type} (N L : List α) : Prop :=
  ∃ p q, L = p ++ N ++ q

theorem seg_trans {α : Type} {L M N : List α} (h₁ : Seg M L) (h₂ : Seg N M) :
    Seg N L := by
  obtain ⟨p, q, hpq⟩ := h₁
  obtain ⟨r, s, hrs⟩ := h₂
  exact ⟨p ++ r, s ++ q, by simp [hpq, hrs]⟩

theorem seg_of_mem_flatMap {α β : Type} {a : α} {l : List α} (g : α → List β)
    (h : a ∈ l) : Seg (g a) (l.flatMap g) := by
  induction l with
  | nil => cases h
  | cons x xs ih =>
      rcases List.mem_cons.mp h with rfl | hmem
      · exact ⟨[], xs.flatMap g, by simp⟩
      · obtain ⟨p, q, hpq⟩ := ih hmem
        exact ⟨g x ++ p, q, by simp [hpq]⟩

/-- C3: in every training step of every epoch the trace contains, contiguously
and in this order: obtain the minibatch, forward pass on its blocks and
features, loss, `zero_grad`, `backward`, optimizer step, and only then the
accuracy computation; moreover dataset loading precedes construction of the
two data loaders, which precedes the training loop. -/
theorem training_step_order (env : Env) (e s : Nat)
    (he : e < 10) (hs : s < env.trainBatches) :
    Seg [Event.getMinibatch "train" e s, Event.forwardPass e s true,
         Event.computeLoss e s, Event.zeroGrad e s, Event.backward e s,
         Event.optStep e s, Event.computeAccuracy e s] (notebookTrace env) ∧
    (∃ l₁ l₂, notebookTrace env =
        l₁ ++ [Event.loadDataset "ogbn-arxiv-seeds"] ++ l₂
           ++ dataloadersCellTrace ++ trainLoopTrace env) := by
  constructor
  · have h₁ : Seg (trainLoopTrace env) (notebookTrace env) :=
      ⟨importCellTrace ++ loadCellTrace ++ setupCellTrace env
        ++ firstBatchCellTrace env ++ inputNodesCellTrace env
        ++ modelCellTrace ++ optCellTrace ++ dataloadersCellTrace, [],
       by simp [notebookTrace, postImportTrace]⟩
    have h₂ : Seg (epochTrace env e) (trainLoopTrace env) :=
      seg_of_mem_flatMap (epochTrace env) (List.mem_range.mpr he)
    have h₃ : Seg ((List.range env.trainBatches).flatMap (trainStepTrace env e))
        (epochTrace env e) :=
      ⟨[Event.modelTrainMode], validPhaseTrace env e,
       by simp [epochTrace, trainPhaseTrace]⟩
    have h₄ : Seg (trainStepTrace env e s)
        ((List.range env.trainBatches).flatMap (trainStepTrace env e)) :=
      seg_of_mem_flatMap (trainStepTrace env e) (List.mem_range.mpr hs)
    have h₅ : Seg [Event.getMinibatch "train" e s, Event.forwardPass e s true,
         Event.computeLoss e s, Event.zeroGrad e s, Event.backward e s,
         Event.optStep e s, Event.computeAccuracy e s] (trainStepTrace env e s) :=
      ⟨[], [Event.progressUpdate e s (env.lossStr e s) (env.accStr e s)],
       by simp [trainStepTrace]⟩
    exact seg_trans (seg_trans (seg_trans (seg_trans h₁ h₂) h₃) h₄) h₅
  · exact ⟨importCellTrace,
      setupCellTrace env ++ firstBatchCellTrace env ++ inputNodesCellTrace env
        ++ modelCellTrace ++ optCellTrace,
      by simp [notebookTrace, postImportTrace, loadCellTrace]⟩

/-- Witness for `training_step_order` at epoch 0, step 0 of the concrete run
`envA`. -/
theorem training_step_order_witness :
    (0 : Nat) < 10 ∧ 0 < envA.trainBatches ∧
    (Seg [Event.getMinibatch "train" 0 0, Event.forwardPass 0 0 true,
          Event.computeLoss 0 0, Event.zeroGrad 0 0, Event.backward 0 0,
          Event.optStep 0 0, Event.computeAccuracy 0 0] (notebookTrace envA) ∧
     (∃ l₁ l₂, notebookTrace envA =
         l₁ ++ [Event.loadDataset "ogbn-arxiv-seeds"] ++ l₂
            ++ dataloadersCellTrace ++ trainLoopTrace envA)) :=
  ⟨by decide, by decide, training_step_order envA 0 0 (by decide) (by decide)⟩

/-- Shape of every event the notebook's trace can contain: in particular all
placement events carry `device`, and no `writeFile`, `saveModel` or
`defineCli` event ever occurs. -/
def EvShape (ev : Event) : Prop :=
  ev = Event.pipInstall ∨ ev = Event.importLib ∨
  (∃ s, ev = Event.printLine s) ∨
  ev = Event.loadDataset "ogbn-arxiv-seeds" ∨
  ev = Event.graphTo device ∨ ev = Event.featureTo device ∨
  (∃ i sh, ev = Event.mkDataloader i sh) ∨
  (∃ l a b, ev = Event.getMinibatch l a b) ∨
  ev = Event.modelInit device ∨ ev = Event.mkOptimizer ∨
  ev = Event.modelTrainMode ∨ ev = Event.modelEvalMode ∨
  (∃ a b g, ev = Event.forwardPass a b g) ∨
  (∃ a b, ev = Event.computeLoss a b) ∨
  (∃ a b, ev = Event.zeroGrad a b) ∨
  (∃ a b, ev = Event.backward a b) ∨
  (∃ a b, ev = Event.optStep a b) ∨
  (∃ a b, ev = Event.computeAccuracy a b) ∨
  (∃ a b l c, ev = Event.progressUpdate a b l c) ∨
  (∃ a b, ev = Event.argmaxAppend a b) ∨
  (∃ a, ev = Event.validAccuracy a)

theorem allEv_append {p : Event → Prop} {l₁ l₂ : List Event}
    (h₁ : ∀ ev ∈ l₁, p ev) (h₂ : ∀ ev ∈ l₂, p ev) :
    ∀ ev ∈ l₁ ++ l₂, p ev := by
  intro ev h
  rcases List.mem_append.mp h with h | h
  exacts [h₁ ev h, h₂ ev h]

theorem allEv_flatMap {p : Event → Prop} {g : Nat → List Event}
    (h : ∀ a, ∀ ev ∈ g a, p ev) (l : List Nat) :
    ∀ ev ∈ l.flatMap g, p ev := by
  intro ev hm
  obtain ⟨a, _, hin⟩ := List.mem_flatMap.mp hm
  exact h a ev hin

theorem shape_trainStep (env : Env) (e s : Nat) :
    ∀ ev ∈ trainStepTrace env e s, EvShape ev := by
  intro ev h
  simp only [trainStepTrace, List.mem_cons, List.not_mem_nil, or_false] at h
  rcases h with rfl | rfl | rfl | rfl | rfl | rfl | rfl | rfl <;> simp [EvShape]

theorem shape_validStep (e s : Nat) :
    ∀ ev ∈ validStepTrace e s, EvShape ev := by
  intro ev h
  simp only [validStepTrace, List.mem_cons, List.not_mem_nil, or_false] at h
  rcases h with rfl | rfl | rfl <;> simp [EvShape]

theorem shape_epoch (env : Env) (e : Nat) :
    ∀ ev ∈ epochTrace env e, EvShape ev := by
  intro ev h
  rcases List.mem_append.mp h with h | h
  · rcases List.mem_cons.mp h with rfl | h
    · simp [EvShape]
    · exact allEv_flatMap (shape_trainStep env e) _ ev h
  · rcases List.mem_cons.mp h with rfl | h
    · simp [EvShape]
    · rcases List.mem_append.mp h with h | h
      · exact allEv_flatMap (shape_validStep e) _ ev h
      · simp only [List.mem_cons, List.not_mem_nil, or_false] at h
        rcases h with rfl | rfl <;> simp [EvShape]

theorem shape_notebookTrace (env : Env) :
    ∀ ev ∈ notebookTrace env, EvShape ev := by
  have hcells : ∀ ev ∈ importCellTrace ++ loadCellTrace ++ setupCellTrace env
      ++ firstBatchCellTrace env ++ inputNodesCellTrace env ++ modelCellTrace
      ++ optCellTrace ++ dataloadersCellTrace, EvShape ev := by
    intro ev h
    simp only [importCellTrace, loadCellTrace, setupCellTrace,
      firstBatchCellTrace, inputNodesCellTrace, modelCellTrace, optCellTrace,
      dataloadersCellTrace, List.mem_append, List.mem_cons,
      List.not_mem_nil, or_false] at h
    casesm* _ ∨ _ <;> subst_vars <;> simp [EvShape]
  intro ev h
  have hsplit : notebookTrace env =
      (importCellTrace ++ loadCellTrace ++ setupCellTrace env
        ++ firstBatchCellTrace env ++ inputNodesCellTrace env ++ modelCellTrace
        ++ optCellTrace ++ dataloadersCellTrace) ++ trainLoopTrace env := by
    simp [notebookTrace, postImportTrace]
  rw [hsplit] at h
  exact allEv_append hcells
    (allEv_flatMap (shape_epoch env) (List.range 10)) ev h

/-- C5: no event of any complete execution writes a file or defines a
command-line interface; in particular no epoch of the training/validation
loop saves the model or a checkpoint. -/
theorem no_file_writes (env : Env) (ev : Event) (h : ev ∈ notebookTrace env) :
    writesFileOrDefinesCli ev = false := by
  rcases shape_notebookTrace env ev h with rfl | rfl | ⟨s, rfl⟩ | rfl | rfl |
    rfl | ⟨i, sh, rfl⟩ | ⟨l, a, b, rfl⟩ | rfl | rfl | rfl | rfl |
    ⟨a, b, g, rfl⟩ | ⟨a, b, rfl⟩ | ⟨a, b, rfl⟩ | ⟨a, b, rfl⟩ | ⟨a, b, rfl⟩ |
    ⟨a, b, rfl⟩ | ⟨a, b, l, c, rfl⟩ | ⟨a, b, rfl⟩ | ⟨a, rfl⟩ <;> rfl

/-- Witness for `no_file_writes` on the dataset-load event of `envA`. -/
theorem no_file_writes_witness :
    Event.loadDataset "ogbn-arxiv-seeds" ∈ notebookTrace envA ∧
    writesFileOrDefinesCli (Event.loadDataset "ogbn-arxiv-seeds") = false := by
  refine ⟨?_, no_file_writes envA _ ?_⟩ <;>
    · show _ ∈ notebookTrace envA
      simp [notebookTrace, postImportTrace, loadCellTrace]

/-- C10: the compute device is unconditionally the CPU: `device` is the CPU
device, every placement event of the trace places on the CPU, the `copy_to`
stage of every data loader targets the CPU, and the minibatch leaving the
pipeline resides on the CPU. -/
theorem cpu_only (env : Env) :
    device = Dev.cpu ∧
    (∀ ev ∈ notebookTrace env, ∀ d, placementDevice ev = some d → d = Dev.cpu) ∧
    (∀ shuffle, Stage.copyTo device ["seeds"] ∈ create_dataloader shuffle) ∧
    (∀ shuffle, (runPipeline (create_dataloader shuffle)).dev = some Dev.cpu) := by
  refine ⟨rfl, ?_, fun shuffle => by simp [create_dataloader], fun shuffle => rfl⟩
  intro ev h d hd
  rcases shape_notebookTrace env ev h with rfl | rfl | ⟨s, rfl⟩ | rfl | rfl |
    rfl | ⟨i, sh, rfl⟩ | ⟨l, a, b, rfl⟩ | rfl | rfl | rfl | rfl |
    ⟨a, b, g, rfl⟩ | ⟨a, b, rfl⟩ | ⟨a, b, rfl⟩ | ⟨a, b, rfl⟩ | ⟨a, b, rfl⟩ |
    ⟨a, b, rfl⟩ | ⟨a, b, l, c, rfl⟩ | ⟨a, b, rfl⟩ | ⟨a, rfl⟩ <;>
      simp [placementDevice, device] at hd <;> first | exact hd | exact hd.symm

/-- Witness for `cpu_only` at the concrete run `envA`. -/
theorem cpu_only_witness :
    device = Dev.cpu ∧
    (∀ ev ∈ notebookTrace envA, ∀ d, placementDevice ev = some d → d = Dev.cpu) ∧
    (∀ shuffle, Stage.copyTo device ["seeds"] ∈ create_dataloader shuffle) ∧
    (∀ shuffle, (runPipeline (create_dataloader shuffle)).dev = some Dev.cpu) :=
  cpu_only envA

theorem foldl_fixed {α P : Type} (f : P → α → P) :
    ∀ (l : List α) (θ : P), (∀ a ∈ l, ∀ p, f p a = p) → l.foldl f θ = θ := by
  intro l
  induction l with
  | nil => intro θ _; rfl
  | cons a rest ih =>
      intro θ h
      rw [List.foldl_cons, h a (List.mem_cons_self a rest)]
      exact ih θ fun b hb p => h b (List.mem_cons_of_mem a hb) p

theorem mem_validPhase (env : Env) (e : Nat) :
    ∀ ev ∈ validPhaseTrace env e,
      ev = Event.modelEvalMode ∨
      (∃ s, ev = Event.getMinibatch "valid" e s) ∨
      (∃ s, ev = Event.forwardPass e s false) ∨
      (∃ s, ev = Event.argmaxAppend e s) ∨
      ev = Event.validAccuracy e ∨
      (∃ str, ev = Event.printLine str) := by
  intro ev h
  rcases List.mem_cons.mp h with rfl | h
  · simp
  · rcases List.mem_append.mp h with h | h
    · obtain ⟨s, _, hin⟩ := List.mem_flatMap.mp h
      simp only [validStepTrace, List.mem_cons, List.not_mem_nil, or_false] at hin
      rcases hin with rfl | rfl | rfl <;> simp
    · simp only [List.mem_cons, List.not_mem_nil, or_false] at h
      rcases h with rfl | rfl <;> simp

/-- C9: the validation phase of an epoch never modifies the model parameters:
its forward passes all run with gradients disabled (`torch.no_grad()`), it
contains no `opt.zero_grad`, `loss.backward` or `opt.step` call, and folding
the abstract parameter semantics over it leaves any parameter state
unchanged. -/
theorem validation_preserves_params (env : Env) (e : Nat) {P : Type}
    (stepFn : P → P) (θ : P) :
    (validPhaseTrace env e).foldl (applyToParams stepFn) θ = θ ∧
    (∀ ev ∈ validPhaseTrace env e,
       (∀ a b, ev ≠ Event.optStep a b) ∧ (∀ a b, ev ≠ Event.zeroGrad a b) ∧
       (∀ a b, ev ≠ Event.backward a b)) ∧
    (∀ ev ∈ validPhaseTrace env e, ∀ a b, ev ≠ Event.forwardPass a b true) := by
  refine ⟨?_, ?_, ?_⟩
  · refine foldl_fixed _ _ θ fun a ha p => ?_
    rcases mem_validPhase env e a ha with rfl | ⟨s, rfl⟩ | ⟨s, rfl⟩ |
      ⟨s, rfl⟩ | rfl | ⟨str, rfl⟩ <;> rfl
  · intro ev h
    rcases mem_validPhase env e ev h with rfl | ⟨s, rfl⟩ | ⟨s, rfl⟩ |
      ⟨s, rfl⟩ | rfl | ⟨str, rfl⟩ <;> refine ⟨?_, ?_, ?_⟩ <;> intro a b <;> simp
  · intro ev h
    rcases mem_validPhase env e ev h with rfl | ⟨s, rfl⟩ | ⟨s, rfl⟩ |
      ⟨s, rfl⟩ | rfl | ⟨str, rfl⟩ <;> intro a b <;> simp

/-- Witness for `validation_preserves_params`: epoch 0 of `envA`, parameter
state `7 : Nat`, optimizer update `n + 1`. -/
theorem validation_preserves_params_witness :
    (validPhaseTrace envA 0).foldl (applyToParams fun n : Nat => n + 1) 7 = 7 ∧
    (∀ ev ∈ validPhaseTrace envA 0,
       (∀ a b, ev ≠ Event.optStep a b) ∧ (∀ a b, ev ≠ Event.zeroGrad a b) ∧
       (∀ a b, ev ≠ Event.backward a b)) ∧
    (∀ ev ∈ validPhaseTrace envA 0, ∀ a b, ev ≠ Event.forwardPass a b true) :=
  validation_preserves_params envA 0 (fun n : Nat => n + 1) 7

theorem filterMap_flatMap_eq {α β γ : Type} (f : β → Option γ) (g : α → List β) :
    ∀ l : List α, (l.flatMap g).filterMap f = l.flatMap fun a => (g a).filterMap f := by
  intro l
  induction l with
  | nil => rfl
  | cons a rest ih => simp [List.flatMap_cons, List.filterMap_append, ih]

theorem flatMap_const_nil {α β : Type} :
    ∀ l : List α, (l.flatMap fun _ => ([] : List β)) = [] := by
  intro l
  induction l with
  | nil => rfl
  | cons a rest ih => simp [List.flatMap_cons, ih]

theorem flatMap_singleton_eq_map {α β : Type} (f : α → β) :
    ∀ l : List α, (l.flatMap fun a => [f a]) = l.map f := by
  intro l
  induction l with
  | nil => rfl
  | cons a rest ih => simp [List.flatMap_cons, ih]

theorem printed_epoch (env : Env) (e : Nat) :
    (epochTrace env e).filterMap printOf =
      ["Epoch " ++ toString e ++ " Validation Accuracy " ++ env.validAccStr e] := by
  simp [epochTrace, trainPhaseTrace, validPhaseTrace, trainStepTrace,
    validStepTrace, List.filterMap_append, List.filterMap_cons, printOf,
    filterMap_flatMap_eq, flatMap_const_nil]

theorem printed_trainLoop (env : Env) :
    (trainLoopTrace env).filterMap printOf =
      (List.range 10).map
        (fun e => "Epoch " ++ toString e ++ " Validation Accuracy " ++ env.validAccStr e) := by
  simp [trainLoopTrace, filterMap_flatMap_eq, printed_epoch,
    flatMap_singleton_eq_map]

/-- C1 (amended): a complete execution prints exactly these lines, in order:
the install status line "DGL installed!", the task line (task name and number
of classes), the first minibatch's representation, the input node IDs of the
first minibatch, and for each of the 10 epochs one line reporting the epoch
number and that epoch's validation accuracy; the per-step loss and training
accuracy go only to the tqdm progress update, never to a printed line. -/
theorem printed_lines_characterization (env : Env) :
    printedLines env =
      ["DGL installed!",
       "Task: " ++ env.taskName ++ ". Number of classes: " ++ toString env.numClasses,
       env.dataRepr,
       "Input nodes: " ++ env.inputNodesRepr ++ "."]
      ++ (List.range 10).map
          (fun e => "Epoch " ++ toString e ++ " Validation Accuracy " ++ env.validAccStr e) ∧
    ∀ e s, Event.progressUpdate e s (env.lossStr e s) (env.accStr e s)
      ∈ trainStepTrace env e s := by
  constructor
  · simp [printedLines, notebookTrace, postImportTrace, importCellTrace,
      loadCellTrace, setupCellTrace, firstBatchCellTrace, inputNodesCellTrace,
      modelCellTrace, optCellTrace, dataloadersCellTrace,
      List.filterMap_append, List.filterMap_cons, printOf, printed_trainLoop]
  · intro e s
    simp [trainStepTrace]

set_option maxRecDepth 8000

/-- C1 counterexample: the claim that the line printed at the end of each
epoch reports both the loss and the accuracy is false.  `envA` and `envB` are
identical runs except that every training-step loss differs ("1.000" versus
"2.000"), yet the printed output is identical, and the line printed at the
end of epoch 0 is exactly "Epoch 0 Validation Accuracy 0.500": no printed
line depends on or reports the loss. -/
theorem epoch_line_reports_no_loss :
    envA.lossStr 0 0 = "1.000" ∧ envB.lossStr 0 0 = "2.000" ∧
    (printedLines envA).getD 4 "" = "Epoch 0 Validation Accuracy 0.500" ∧
    printedLines envA = printedLines envB :=
  ⟨rfl, rfl, by decide, by decide⟩

theorem runEvents_eq_none_iff (fails : Event → Option String) :
    ∀ l : List Event, runEvents fails l = none ↔ ∀ ev ∈ l, fails ev = none := by
  intro l
  induction l with
  | nil => simp [runEvents]
  | cons ev rest ih =>
      cases hf : fails ev with
      | some exn => simp [runEvents, hf]
      | none => simp [runEvents, hf, ih]

/-- C6: the install cell's ImportError guard is the only except clause in the
whole notebook; every cell after it is handler-free, so in the region from
dataset loading through the training loop an exception raised by any
operation propagates to the notebook environment: the run finishes without
raising if and only if no operation raises. -/
theorem single_import_guard :
    Stmt.exnClauses notebookProgram = ["ImportError"] ∧
    Stmt.exnClauses installCellStmts = ["ImportError"] ∧
    Stmt.exnClauses postImportProgram = [] ∧
    ∀ (env : Env) (fails : Event → Option String),
      (runEvents fails (postImportTrace env) = none ↔
        ∀ ev ∈ postImportTrace env, fails ev = none) :=
  ⟨rfl, rfl, rfl, fun _ fails => runEvents_eq_none_iff fails _⟩

/-- Witness for `single_import_guard`: the run over `envA` with no failing
operation finishes without raising. -/
theorem single_import_guard_witness :
    runEvents (fun _ => none) (postImportTrace envA) = none :=
  (single_import_guard.2.2.2 envA (fun _ => none)).mpr (fun _ _ => rfl)

end NodeClassification
